import Mathlib

set_option maxHeartbeats 1000000
set_option maxRecDepth 10000
set_option linter.unusedVariables false

namespace WaterJudge

/-- JSON values as handled by the json module in the source.  Numbers are
modelled in decimal form: jnum m e denotes m * 10 ^ e, so integers carry
e = 0.  Objects are association lists whose keys, when produced by the
parser below, are deduplicated exactly as a Python dict deduplicates
(last value wins, first position kept). -/
inductive Json where
  | jnull : Json
  | jbool : Bool → Json
  | jnum  : Int → Int → Json
  | jstr  : String → Json
  | jarr  : List Json → Json
  | jobj  : List (String × Json) → Json

/-- Python truthiness of a parsed JSON value, as used by `if value:` tests
in the source. -/
def pyTruthy : Json → Bool
  | Json.jnull => false
  | Json.jbool b => b
  | Json.jnum m _ => m != 0
  | Json.jstr s => s != ""
  | Json.jarr xs => !xs.isEmpty
  | Json.jobj kvs => !kvs.isEmpty

/-- Decimal literal for a modelled JSON number, used when serializing. -/
def numLit (m : Int) (e : Int) : String :=
  if e = 0 then toString m else toString m ++ "e" ++ toString e

/-- Python str() of a parsed JSON value, as an f-string renders it.  Only
the integer and string cases are exercised by the claims; the remaining
cases are a coarse but deterministic rendering. -/
def pyStr : Json → String
  | Json.jnull => "None"
  | Json.jbool true => "True"
  | Json.jbool false => "False"
  | Json.jnum m e => numLit m e
  | Json.jstr s => s
  | Json.jarr _ => "[...]"
  | Json.jobj _ => "\x7b...\x7d"

/-- Python dict get with a default, dict.get(key, default):
for a JSON object, look the key up, otherwise return the default. -/
def Json.getD (j : Json) (key : String) (default : Json) : Json :=
  match j with
  | Json.jobj kvs => (kvs.lookup key).getD default
  | _ => default

/-- Escape for string serialization, mirroring json.dumps with
ensure_ascii False on the characters that occur in this code base. -/
def escapeJson (s : String) : String :=
  s.toList.foldl (fun acc c =>
    if c = '"' then acc ++ "\\\""
    else if c = '\\' then acc ++ "\\\\"
    else if c = '\n' then acc ++ "\\n"
    else if c = '\t' then acc ++ "\\t"
    else if c = '\r' then acc ++ "\\r"
    else acc.push c) ""

mutual

/-- Model of json.dumps with default separators (", " and ": ") and
ensure_ascii False, as called in the source. -/
def Json.dump : Json → String
  | Json.jnull => "null"
  | Json.jbool true => "true"
  | Json.jbool false => "false"
  | Json.jnum m e => numLit m e
  | Json.jstr s => "\"" ++ escapeJson s ++ "\""
  | Json.jarr xs => "[" ++ dumpList xs ++ "]"
  | Json.jobj kvs => "\x7b" ++ dumpObj kvs ++ "\x7d"

/-- Serialize the elements of a JSON array, comma separated. -/
def dumpList : List Json → String
  | [] => ""
  | [x] => Json.dump x
  | x :: xs => Json.dump x ++ ", " ++ dumpList xs

/-- Serialize the members of a JSON object, comma separated. -/
def dumpObj : List (String × Json) → String
  | [] => ""
  | [(k, v)] => "\"" ++ escapeJson k ++ "\": " ++ Json.dump v
  | (k, v) :: kvs => "\"" ++ escapeJson k ++ "\": " ++ Json.dump v ++ ", " ++ dumpObj kvs

end

/-- Python dict assignment d[k] = v on an association list: replace the
value in place when the key is present, append otherwise. -/
def dictSet (l : List (String × Json)) (k : String) (v : Json) : List (String × Json) :=
  if (l.lookup k).isSome then
    l.map (fun kv => if kv.1 = k then (k, v) else kv)
  else l ++ [(k, v)]

/-- Build a dict from parsed members the way the json module does: later
duplicate keys overwrite earlier ones, keeping the first position. -/
def dedupObj (kvs : List (String × Json)) : List (String × Json) :=
  kvs.foldl (fun acc kv => dictSet acc kv.1 kv.2) []

/-- JSON whitespace skipping used by the parser model. -/
def skipWs (cs : List Char) : List Char :=
  cs.dropWhile (fun c => c == ' ' || c == '\t' || c == '\n' || c == '\r')

/-- Read the body of a JSON string literal after the opening quote,
handling the standard single-character escapes (unicode escapes are not
modelled; no claim exercises them). -/
def parseStringChars : List Char → List Char → Option (String × List Char)
  | [], _ => none
  | '"' :: r, acc => some (String.mk acc.reverse, r)
  | '\\' :: e :: r, acc =>
    if e = '"' then parseStringChars r ('"' :: acc)
    else if e = '\\' then parseStringChars r ('\\' :: acc)
    else if e = '/' then parseStringChars r ('/' :: acc)
    else if e = 'n' then parseStringChars r ('\n' :: acc)
    else if e = 't' then parseStringChars r ('\t' :: acc)
    else if e = 'r' then parseStringChars r ('\r' :: acc)
    else if e = 'b' then parseStringChars r ('\x08' :: acc)
    else if e = 'f' then parseStringChars r ('\x0c' :: acc)
    else none
  | c :: r, acc => parseStringChars r (c :: acc)

/-- Numeric value of a digit run. -/
def digitsToNat (ds : List Char) : Nat :=
  ds.foldl (fun n c => n * 10 + (c.toNat - '0'.toNat)) 0

/-- Parse a JSON number (optional sign, integer part, optional fractional
part; exponents are not modelled, no claim exercises them). -/
def parseNumber (cs : List Char) : Option (Json × List Char) :=
  let (neg, cs1) := match cs with
    | '-' :: r => (true, r)
    | _ => (false, cs)
  let ds := cs1.takeWhile Char.isDigit
  let rest := cs1.dropWhile Char.isDigit
  if ds.isEmpty then none
  else
    let ipart : Int := Int.ofNat (digitsToNat ds)
    match rest with
    | '.' :: r2 =>
      let fs := r2.takeWhile Char.isDigit
      let rest2 := r2.dropWhile Char.isDigit
      if fs.isEmpty then none
      else
        let m : Int := ipart * Int.ofNat (10 ^ fs.length) + Int.ofNat (digitsToNat fs)
        some (Json.jnum (if neg then -m else m) (-(Int.ofNat fs.length)), rest2)
    | _ => some (Json.jnum (if neg then -ipart else ipart) 0, rest)

mutual

/-- Fuel-driven recursive-descent model of json.loads.  Every recursive
call happens strictly after at least one character of input has been
consumed, so fuel larger than the input length is never exhausted. -/
def parseVal : Nat → List Char → Option (Json × List Char)
  | 0, _ => none
  | fuel + 1, cs =>
    match skipWs cs with
    | '"' :: r => (parseStringChars r []).map (fun sr => (Json.jstr sr.1, sr.2))
    | 'n' :: 'u' :: 'l' :: 'l' :: r => some (Json.jnull, r)
    | 't' :: 'r' :: 'u' :: 'e' :: r => some (Json.jbool true, r)
    | 'f' :: 'a' :: 'l' :: 's' :: 'e' :: r => some (Json.jbool false, r)
    | '[' :: r =>
      (match skipWs r with
       | ']' :: r2 => some (Json.jarr [], r2)
       | r2 => (parseArrItems fuel r2).map (fun xr => (Json.jarr xr.1, xr.2)))
    | '\x7b' :: r =>
      (match skipWs r with
       | '\x7d' :: r2 => some (Json.jobj [], r2)
       | r2 => (parseObjItems fuel r2).map (fun xr => (Json.jobj (dedupObj xr.1), xr.2)))
    | other => parseNumber other

/-- Parse the comma-separated items of a JSON array up to the closing
bracket. -/
def parseArrItems : Nat → List Char → Option (List Json × List Char)
  | 0, _ => none
  | fuel + 1, cs =>
    match parseVal fuel cs with
    | none => none
    | some (v, rest) =>
      match skipWs rest with
      | ',' :: r2 => (parseArrItems fuel r2).map (fun xr => (v :: xr.1, xr.2))
      | ']' :: r2 => some ([v], r2)
      | _ => none

/-- Parse the comma-separated members of a JSON object up to the closing
brace. -/
def parseObjItems : Nat → List Char → Option (List (String × Json) × List Char)
  | 0, _ => none
  | fuel + 1, cs =>
    match skipWs cs with
    | '"' :: r =>
      match parseStringChars r [] with
      | none => none
      | some (k, rest) =>
        match skipWs rest with
        | ':' :: r2 =>
          match parseVal fuel r2 with
          | none => none
          | some (v, rest2) =>
            match skipWs rest2 with
            | ',' :: r3 => (parseObjItems fuel r3).map (fun xr => ((k, v) :: xr.1, xr.2))
            | '\x7d' :: r3 => some ([(k, v)], r3)
            | _ => none
        | _ => none
    | _ => none

end

/-- Model of json.loads on a candidate span: parse one value and require
that nothing but whitespace follows. -/
def jsonParse (s : String) : Option Json :=
  match parseVal (s.length + 1) s.toList with
  | some (j, rest) => if (skipWs rest).isEmpty then some j else none
  | none => none

/-- Model of json.loads restricted to a top-level object, as every span
handed to it in the source starts with an opening brace. -/
def jsonParseObj (s : String) : Option (List (String × Json)) :=
  match jsonParse s with
  | some (Json.jobj kvs) => some kvs
  | _ => none

/-- Model of the first-to-last-brace extraction re.search of a brace span
with DOTALL in analyze_water: the match, when any exists, runs from the
first opening brace to the last closing brace that follows it. -/
def extractBraceSpan (s : String) : Option String :=
  let cs := s.toList
  match cs.findIdx? (fun c => c == '\x7b'), cs.reverse.findIdx? (fun c => c == '\x7d') with
  | some i, some jr =>
    let j := cs.length - 1 - jr
    if i < j then some (String.mk ((cs.drop i).take (j - i + 1))) else none
  | _, _ => none

/-- Modelled text of the json.JSONDecodeError message raised when a brace
span is not valid JSON; the source only ever forwards str(e) into a
diagnostic field, so the exact wording is immaterial to every claim. -/
def jsonDecodeMsg (_span : String) : String :=
  "JSONDecodeError: invalid JSON in model output"

/-- Use-case keyed default detailed assessment of enhance_response in
simple_judge.py; only the drinking template embeds the input data. -/
def enhDetailedDrinking (input_data : String) : String :=
  "Based on the provided water analysis data \x27" ++ input_data ++ "\x27, this water source requires comprehensive evaluation before consumption. The assessment considers multiple factors including visual clarity, chemical composition, potential microbial contamination, and source reliability. For drinking water purposes, safety standards are extremely strict as waterborne illnesses can cause serious health complications. The evaluation process examines pH levels, turbidity, chemical contaminants, and biological indicators to determine potability. Environmental factors such as source location, seasonal variations, and upstream activities significantly impact water quality and must be considered in the final safety determination."

/-- Irrigation entry of the detailed_assessments dict in enhance_response. -/
def enhDetailedIrrigation : String :=
  "The water sample analysis for irrigation purposes reveals several important considerations for agricultural use. Irrigation water quality directly impacts soil health, crop yield, and long-term agricultural sustainability. Key factors include salt content, pH levels, and potential chemical contaminants that could accumulate in soil over time. The assessment evaluates the water\x27s suitability for different crop types, as some plants are more sensitive to water quality variations than others. Proper irrigation practices and ongoing monitoring are essential to prevent soil degradation and ensure optimal plant health."

/-- Human entry of the detailed_assessments dict in enhance_response. -/
def enhDetailedHuman : String :=
  "For hygiene and cleaning applications, this water source presents specific considerations related to skin contact and indirect exposure risks. While standards for hygiene water are less stringent than drinking water, certain contaminants can still cause skin irritation, allergic reactions, or other health issues. The assessment examines bacterial content, chemical residues, and physical contaminants that might affect cleaning effectiveness or pose contact risks. Proper treatment and handling procedures can significantly improve safety for personal hygiene use."

/-- Animals entry of the detailed_assessments dict in enhance_response. -/
def enhDetailedAnimals : String :=
  "Animal water consumption requirements vary significantly by species, size, and sensitivity levels. This assessment considers the specific needs and tolerances of different animals, as some species are more resilient to water quality variations while others require nearly potable-quality water. Factors such as heavy metals, bacterial contamination, and chemical residues are evaluated for their potential impact on animal health, reproduction, and productivity. Long-term exposure effects and species-specific vulnerabilities are important considerations in the safety determination."

/-- The detailed_assessments dict lookup with the drinking entry as the
default, detailed_assessments.get(use_case, detailed_assessments of
drinking). -/
def detailedAssessments (input_data use_case : String) : String :=
  if use_case == "drinking" then enhDetailedDrinking input_data
  else if use_case == "irrigation" then enhDetailedIrrigation
  else if use_case == "human" then enhDetailedHuman
  else if use_case == "animals" then enhDetailedAnimals
  else enhDetailedDrinking input_data

/-- The current_safety_analysis replacement text of enhance_response. -/
def enhCurrentSafety (use_case : String) : String :=
  "For " ++ use_case ++ " use, the current safety profile shows moderate concerns that require attention. The primary considerations include potential contamination risks, treatment requirements, and monitoring protocols. Based on available data, immediate use may present risks that can be mitigated through appropriate treatment methods. The safety assessment considers both acute and chronic exposure scenarios to provide comprehensive guidance."

/-- The risk_analysis replacement text of enhance_response. -/
def enhRisk : String :=
  "The comprehensive risk assessment identifies several categories of potential hazards. Microbial risks include bacteria, viruses, and parasites that could cause immediate illness. Chemical risks encompass both natural minerals and artificial contaminants that may accumulate over time. Physical contaminants such as sediment and debris can affect taste, appearance, and equipment function. The likelihood and severity of each risk category varies based on source characteristics and intended use patterns."

/-- The environmental_context replacement text of enhance_response. -/
def enhEnv : String :=
  "Environmental factors significantly influence water quality and treatment requirements. Source location, seasonal weather patterns, upstream activities, and local geology all contribute to water characteristics. Understanding these environmental influences helps predict quality variations and plan appropriate treatment strategies. Regional water quality trends and local contamination sources provide important context for ongoing monitoring and safety protocols."

/-- The scientific_rationale replacement text of enhance_response. -/
def enhSci : String :=
  "The assessment methodology combines visual inspection, available test data, and established water quality standards to generate safety recommendations. Confidence levels reflect data completeness and measurement reliability. Scientific principles guide the interpretation of chemical indicators, biological markers, and physical characteristics. The analysis follows established protocols while acknowledging limitations in available data and testing capabilities."

/-- The long_term_considerations replacement text of enhance_response. -/
def enhLong : String :=
  "Long-term water use patterns require ongoing monitoring and periodic reassessment. Health effects from chronic exposure may differ significantly from acute risks. System maintenance, source protection, and quality verification protocols help ensure sustained safety over time. Regular testing schedules and treatment system updates are essential components of comprehensive water management strategies."

/-- The emergency_protocols replacement text of enhance_response. -/
def enhEmer : String :=
  "In case of suspected water-related illness, immediately discontinue use and seek medical attention. Alternative water sources should be identified and maintained as backup options. Emergency contact information for water quality professionals and health authorities should be readily available. Documentation of symptoms, exposure duration, and treatment methods helps medical professionals provide appropriate care."

/-- Drinking entry of get_detailed_purification_steps. -/
def stepsDrinking : String :=
  "Step 1: Initial Assessment - Examine water visually for color, clarity, odor, and visible contaminants. Allow turbid water to settle for 30-60 minutes to separate sediment. Record observations for treatment planning.\n\nStep 2: Pre-filtration - Use clean cloth, coffee filter, or sand/gravel filter to remove visible particles. For cloth filtration, use tightly woven fabric and filter slowly. Replace or clean filter material between uses.\n\nStep 3: Primary Disinfection - Boil water at rolling boil for 1 minute at sea level (3 minutes above 6,500 feet elevation). Alternatively, use water purification tablets following manufacturer instructions exactly. UV sterilization requires clear water and proper exposure time.\n\nStep 4: Chemical Treatment - If chlorine taste is strong, use activated carbon filter or let water sit uncovered for 30 minutes to reduce chlorine levels. Carbon filters must be replaced regularly to maintain effectiveness.\n\nStep 5: Final Storage - Store treated water in clean, covered containers made of food-grade materials. Label with treatment date and use within 24 hours if unrefrigerated. Avoid recontamination during storage and dispensing."

/-- Irrigation entry of get_detailed_purification_steps. -/
def stepsIrrigation : String :=
  "Step 1: Sediment Management - Allow water to settle in holding tank or pond for 2-4 hours minimum. Remove settled particles using bottom drain or pumping from upper levels. Install coarse mesh screens to prevent large debris entry.\n\nStep 2: pH Testing and Adjustment - Test pH using digital meter or test strips. Most crops prefer pH 6.0-7.5. Add agricultural lime to raise pH or sulfur to lower pH. Mix thoroughly and retest after 30 minutes.\n\nStep 3: Filtration System - Install appropriate filtration based on water quality and crop sensitivity. Sand filters work for particle removal, while activated carbon removes chemicals. Size filter system for flow rate requirements.\n\nStep 4: Application Method - Use drip irrigation or subsurface application when possible to minimize plant contact with untreated water. Avoid overhead watering on leafy vegetables or crops consumed raw.\n\nStep 5: Monitoring Protocol - Test soil pH and nutrient levels monthly. Flush irrigation lines weekly with clean water. Monitor plants for signs of stress or contamination. Keep detailed records of water source and treatment methods."

/-- Human entry of get_detailed_purification_steps. -/
def stepsHuman : String :=
  "Step 1: Basic Filtration - Remove visible particles using cloth filter or settling process. This improves appearance and reduces skin irritation potential. Use multiple filter layers for heavily contaminated water.\n\nStep 2: Temperature Preparation - Heat water to appropriate temperature for intended use. Hot water (120-140¬∞F) improves cleaning effectiveness and kills some pathogens. Cool to comfortable temperature before use.\n\nStep 3: Light Disinfection - For bathing water, add 1-2 drops of unscented chlorine bleach per quart of water. Mix thoroughly and let stand 30 minutes before use. Not necessary for laundry or general cleaning.\n\nStep 4: Safe Usage Practices - Avoid splashing water in eyes, nose, or mouth during use. Use clean containers and utensils for water handling. Limit storage time to prevent bacterial growth in treated water.\n\nStep 5: Waste Management - Dispose of used water appropriately to prevent contamination of clean water sources. Do not allow runoff into food preparation areas or drinking water supplies."

/-- Animals entry of get_detailed_purification_steps. -/
def stepsAnimals : String :=
  "Step 1: Debris Removal - Filter out visible particles, debris, and contaminants that could harm animals. Use mesh straining or settling process appropriate for water volume requirements.\n\nStep 2: Basic Treatment - Consider mild chlorination for livestock (consult veterinarian for species-specific dosage). Some animals are more sensitive to chemicals than others. Test small amounts first.\n\nStep 3: Container Preparation - Clean all water troughs and containers thoroughly with appropriate disinfectants. Rinse completely to remove cleaning residues that could harm animals.\n\nStep 4: Distribution Setup - Provide water in clean, elevated containers when possible. Ensure easy access but prevent contamination from animal waste. Install drainage to prevent standing water around containers.\n\nStep 5: Health Monitoring - Watch animals closely for signs of illness, reluctance to drink, or changes in behavior. Maintain alternative clean water source as backup. Document any health issues for veterinary consultation."

/-- Model of get_detailed_purification_steps: the steps dict lookup with
the drinking entry as the default for unknown use cases. -/
def getDetailedPurificationSteps (use_case : String) : String :=
  if use_case == "drinking" then stepsDrinking
  else if use_case == "irrigation" then stepsIrrigation
  else if use_case == "human" then stepsHuman
  else if use_case == "animals" then stepsAnimals
  else stepsDrinking

/-- Model of enhance_response: result.update with the literal dict of
eight replacement fields, applied in the written key order. -/
def enhanceResponse (result : List (String × Json)) (input_data use_case : String) :
    List (String × Json) :=
  dictSet (dictSet (dictSet (dictSet (dictSet (dictSet (dictSet (dictSet result
    "detailed_assessment" (Json.jstr (detailedAssessments input_data use_case)))
    "current_safety_analysis" (Json.jstr (enhCurrentSafety use_case)))
    "risk_analysis" (Json.jstr enhRisk))
    "purification_instructions" (Json.jstr (getDetailedPurificationSteps use_case)))
    "environmental_context" (Json.jstr enhEnv))
    "scientific_rationale" (Json.jstr enhSci))
    "long_term_considerations" (Json.jstr enhLong))
    "emergency_protocols" (Json.jstr enhEmer)

/-- Model of create_detailed_fallback in simple_judge.py.  The error
argument mirrors the optional error keyword; a Python falsy error (None
or the empty string) leaves the rationale untouched. -/
def createDetailedFallback (input_data use_case : String) (error : Option String) :
    List (String × Json) :=
  [("health_percentage", Json.jnum 45 0),
   ("detailed_assessment", Json.jstr ("Limited analysis available for the provided water data: \x27" ++ input_data ++ "\x27. Due to processing constraints, this assessment relies on basic safety protocols and conservative estimates. For " ++ use_case ++ " use, professional water testing is strongly recommended to obtain accurate safety determinations. The evaluation considers general water safety principles and common contamination patterns, but cannot provide specific risk assessments without comprehensive laboratory analysis.")),
   ("current_safety_analysis", Json.jstr ("Current safety for " ++ use_case ++ " use cannot be fully determined without additional testing data. Conservative safety measures are recommended until proper analysis is completed. Basic treatment methods should be applied as precautionary measures, with professional consultation sought for definitive safety guidance.")),
   ("risk_analysis", Json.jstr "Risk assessment is limited due to insufficient data. Potential hazards include microbial contamination, chemical contaminants, and physical impurities. The severity and likelihood of these risks cannot be accurately determined without proper testing. Conservative treatment approaches are recommended to minimize potential exposure."),
   ("purification_instructions", Json.jstr (getDetailedPurificationSteps use_case)),
   ("environmental_context", Json.jstr "Environmental factors affecting water quality cannot be fully assessed with available information. Source characteristics, seasonal variations, and local contamination sources should be investigated to improve safety determinations. Local water quality reports and professional consultation can provide valuable additional context."),
   ("scientific_rationale", Json.jstr ("Assessment methodology is limited by available data constraints. " ++
      (match error with
       | some e => if e == "" then "" else "Processing error encountered: " ++ e ++ ". "
       | none => "") ++
      "Standard safety protocols are applied as precautionary measures. Confidence levels are reduced due to insufficient information for comprehensive analysis. Professional water testing is strongly recommended for accurate safety assessment.")),
   ("long_term_considerations", Json.jstr "Long-term safety cannot be determined without ongoing monitoring and periodic testing. Regular water quality assessments are essential for sustained safe use. Treatment systems require maintenance and periodic updates to ensure continued effectiveness. Professional consultation is recommended for long-term water management planning."),
   ("emergency_protocols", Json.jstr "If any adverse health effects occur after water use, discontinue immediately and seek medical attention. Alternative water sources should be identified and prepared for emergency use. Contact local health authorities if multiple people experience similar symptoms. Keep detailed records of water sources and treatment methods for medical reference."),
   ("classification", Json.jstr "requires_purification"),
   ("confidence_score", Json.jnum 3 (-1)),
   ("use_case", Json.jstr use_case),
   ("detailed_parameters", Json.jobj
     [("ph_analysis", Json.jstr "pH level unknown - testing required for accurate assessment"),
      ("turbidity_analysis", Json.jstr "Turbidity level unknown - visual inspection and testing recommended"),
      ("chemical_analysis", Json.jstr "Chemical composition unknown - laboratory testing required"),
      ("biological_analysis", Json.jstr "Microbial content unknown - biological testing essential for safety"),
      ("physical_analysis", Json.jstr "Physical characteristics require professional evaluation")]),
   ("processing_limitation", Json.jbool true)]

/-- Abbreviation of the comprehensive prompt built by analyze_water in
simple_judge.py.  The full literal is an opaque input to the external
completion collaborator: every claim quantifies over the collaborator or
fixes it to a constant function, so only the dependence of the prompt on
the two arguments matters here. -/
def promptComp (input_data use_case : String) : String :=
  "WATER SAMPLE DATA: " ++ input_data ++ "\nINTENDED USE CASE: " ++ use_case

/-- Model of the minimum-detail check of analyze_water in simple_judge.py
(lines 103 to 107): a detailed_assessment shorter than 800 characters
routes the parsed result through enhance_response, otherwise the result
is returned unchanged.  A missing field reads as the empty string via
dict.get; a present non-string field makes the Python len call raise,
which the surrounding try block turns into the fallback path, modelled
here by the error branch. -/
def qualityGate (r : List (String × Json)) (input_data use_case : String) :
    Except String (List (String × Json)) :=
  match r.lookup "detailed_assessment" with
  | some (Json.jstr d) =>
    if d.length < 800 then Except.ok (enhanceResponse r input_data use_case)
    else Except.ok r
  | none => Except.ok (enhanceResponse r input_data use_case)
  | some _ => Except.error "TypeError: object of this type has no len"

/-- Model of analyze_water in simple_judge.py.  The oracle stands for the
completion collaborator: an error value models the API call raising, an
ok value is the returned message content.  The second component counts
completion-API invocations performed by the call, which is always one:
the single create call is attempted on every path. -/
def analyzeWaterComp (oracle : String → Except String String)
    (input_data use_case : String) : List (String × Json) × Nat :=
  match oracle (promptComp input_data use_case) with
  | Except.error e => (createDetailedFallback input_data use_case (some e), 1)
  | Except.ok text =>
    match extractBraceSpan text with
    | none => (createDetailedFallback input_data use_case none, 1)
    | some span =>
      match jsonParseObj span with
      | none => (createDetailedFallback input_data use_case (some (jsonDecodeMsg span)), 1)
      | some r =>
        match qualityGate r input_data use_case with
        | Except.ok r2 => (r2, 1)
        | Except.error e => (createDetailedFallback input_data use_case (some e), 1)

/-- Abbreviation of the concise prompt built by analyze_water in
judge.py; as with promptComp, the literal text is an opaque input to the
external completion collaborator. -/
def promptSimple (input_data use_case : String) : String :=
  "WATER DATA: " ++ input_data ++ "\nUSE CASE: " ++ use_case

/-- Model of create_concise_fallback in judge.py.  The optional error
argument exists in the source signature but is never used in the body. -/
def createConciseFallback (input_data use_case : String) (error : Option String) : Json :=
  Json.jobj
    [("health_percentage", Json.jnum 50 0),
     ("current_safety_analysis", Json.jstr ("Unable to fully assess safety for " ++ use_case ++ " use. Exercise caution and consider professional testing. Basic filtration and disinfection recommended.")),
     ("risk_analysis", Json.jstr "Potential risks include microbial contamination and chemical impurities. Professional water testing advised for accurate risk assessment."),
     ("purification_instructions", Json.jstr "Filter through clean cloth, boil for 1 minute, or use purification tablets. Store in clean containers and avoid recontamination.")]

/-- Model of analyze_water in judge.py.  An oracle error models the API
call raising; a missing brace span takes the else branch with no error; a
span that fails json.loads raises inside the try block and reaches the
except branch, carrying the decode message.  The second component counts
completion-API invocations, which is always one. -/
def analyzeWaterSimple (oracle : String → Except String String)
    (input_data use_case : String) : Json × Nat :=
  match oracle (promptSimple input_data use_case) with
  | Except.error e => (createConciseFallback input_data use_case (some e), 1)
  | Except.ok text =>
    match extractBraceSpan text with
    | none => (createConciseFallback input_data use_case none, 1)
    | some span =>
      match jsonParse span with
      | some j => (j, 1)
      | none => (createConciseFallback input_data use_case (some (jsonDecodeMsg span)), 1)

/-- The externally visible simplified report shape assembled by
finalize_report in judge.py.  Three of the four fields carry the raw
value taken from the analysis dict, matching the Python assignments. -/
structure FinalReport where
  water_health_percent : String
  current_water_use_cases : Json
  potential_dangers : Json
  purify_for_selected_use : Json

/-- Model of the final_result dict literal of finalize_report (lines 133
to 138): each field falls back to its literal default when the analysis
dict lacks the corresponding key. -/
def mkFinalResult (result : Json) : FinalReport :=
  { water_health_percent :=
      pyStr (result.getD "health_percentage" (Json.jnum 50 0)) ++ "%",
    current_water_use_cases :=
      result.getD "current_safety_analysis"
        (Json.jstr "Use with caution; treat before sensitive uses."),
    potential_dangers :=
      result.getD "risk_analysis"
        (Json.jstr "Possible microbial or chemical contaminants."),
    purify_for_selected_use :=
      result.getD "purification_instructions"
        (Json.jstr "Filter and disinfect before your selected use.") }

/-- The module-level cache state of judge.py: _FINALIZE_CACHE modelled as
an association list in insertion order, and _FINALIZE_ORDER as the list
of keys in insertion order. -/
structure CacheState where
  cache : List (String × FinalReport)
  order : List String

/-- Both module-level containers start empty. -/
def initialCacheState : CacheState := { cache := [], order := [] }

/-- The cache key of finalize_report.  The source keys the cache by the
sha256 hexdigest of this exact string; the hash is modelled as the
identity on its preimage, which is faithful up to hash collisions, a
non-goal accepted by the design. -/
def finalizeKey (combined : Json) (use_case : String) : String :=
  combined.dump ++ "\n" ++ use_case

/-- Model of _FINALIZE_CACHE.get(cache_key). -/
def cacheLookup (st : CacheState) (key : String) : Option FinalReport :=
  st.cache.lookup key

/-- Model of the cache-update block of finalize_report (lines 146 to
151): store the value, append the key to the order ledger, and when the
ledger exceeds 32 entries pop its first element and drop that key from
the cache. -/
def cachePut (st : CacheState) (key : String) (v : FinalReport) : CacheState :=
  let cache1 := st.cache ++ [(key, v)]
  let order1 := st.order ++ [key]
  if order1.length > 32 then
    match order1 with
    | [] => { cache := cache1, order := order1 }
    | old :: rest => { cache := cache1.filter (fun kv => kv.1 != old), order := rest }
  else { cache := cache1, order := order1 }

/-- Model of the location-hint extraction in finalize_report.  The Python
expression combined.get(location, dict()).get(hint) raises an
AttributeError when the stored location value is not a dict; that
uncaught exception is modelled by the error case.  A combined value that
is not a dict fails the isinstance guard first and yields no hint. -/
def locationHintE (combined : Json) : Except String Json :=
  match combined with
  | Json.jobj kvs =>
    match kvs.lookup "location" with
    | none => Except.ok Json.jnull
    | some (Json.jobj lkvs) => Except.ok ((lkvs.lookup "hint").getD Json.jnull)
    | some _ => Except.error "AttributeError: object has no attribute get"
  | _ => Except.ok Json.jnull

/-- Model of finalize_report in judge.py.  The returned triple inside ok
is the report, the cache state after the call, and the number of
completion-API invocations the call performed.  Note the source order of
operations: the completion client is consulted and the final_result dict
is built before the cache is ever read. -/
def finalizeReport (oracle : String → Except String String) (st : CacheState)
    (combined : Json) (use_case : String) :
    Except String (FinalReport × CacheState × Nat) :=
  match locationHintE combined with
  | Except.error e => Except.error e
  | Except.ok hint =>
    let combined_json := combined.dump
    let input_parts :=
      ["Water analysis data: " ++ combined_json,
       "Intended use case: " ++ use_case] ++
      (if pyTruthy hint then ["Location context: " ++ pyStr hint] else [])
    let combined_input := String.intercalate ". " input_parts
    let rc := analyzeWaterSimple oracle combined_input use_case
    let final_result := mkFinalResult rc.1
    let key := finalizeKey combined use_case
    match cacheLookup st key with
    | some cached => Except.ok (cached, st, rc.2)
    | none => Except.ok (final_result, cachePut st key final_result, rc.2)

/-- Run a sequence of finalize_report calls against the module-level
cache state, threading the state; a call that raises leaves the
module-level containers untouched. -/
def runFinalize (oracle : String → Except String String) :
    List (Json × String) → CacheState → CacheState
  | [], st => st
  | (c, uc) :: rest, st =>
    match finalizeReport oracle st c uc with
    | Except.ok r => runFinalize oracle rest r.2.1
    | Except.error _ => runFinalize oracle rest st

/-- Python str.strip character class, also the class matched by the
regex token for whitespace. -/
def isPySpace (c : Char) : Bool :=
  c == ' ' || c == '\t' || c == '\n' || c == '\r' || c == '\x0b' || c == '\x0c'

/-- Python str.strip: drop leading and trailing whitespace. -/
def pyStrip (s : String) : String :=
  String.mk (((s.toList.dropWhile isPySpace).reverse.dropWhile isPySpace).reverse)

/-- First alternative of the step pattern of generate_detailed_plan: the
literal word Step, then any run of whitespace, then a greedy digit run.
Returns the input remainder after the match. -/
def matchStepWord : List Char → Option (List Char)
  | 'S' :: 't' :: 'e' :: 'p' :: rest =>
    let r1 := rest.dropWhile isPySpace
    match r1 with
    | c :: _ => if c.isDigit then some (r1.dropWhile Char.isDigit) else none
    | [] => none
  | _ => none

/-- Second alternative, anchored at the start of the string because the
pattern is compiled without the MULTILINE flag: a digit run followed by a
dot. -/
def matchNumDotStart (cs : List Char) : Option (List Char) :=
  if (cs.takeWhile Char.isDigit).isEmpty then none
  else
    match cs.dropWhile Char.isDigit with
    | '.' :: r => some r
    | _ => none

/-- Third alternative: a newline, a run of whitespace, a digit run, then
a dot. -/
def matchNlNumDot : List Char → Option (List Char)
  | '\n' :: rest =>
    let r1 := rest.dropWhile isPySpace
    if (r1.takeWhile Char.isDigit).isEmpty then none
    else
      match r1.dropWhile Char.isDigit with
      | '.' :: r => some r
      | _ => none
  | _ => none

/-- Fourth alternative: a newline, a run of whitespace, a dash or star,
then a greedy run of trailing whitespace. -/
def matchNlBullet : List Char → Option (List Char)
  | '\n' :: rest =>
    let r1 := rest.dropWhile isPySpace
    match r1 with
    | c :: r => if c == '-' || c == '*' then some (r.dropWhile isPySpace) else none
    | [] => none
  | _ => none

/-- One match attempt of the step pattern at the current position, trying
the four alternatives in their written order as the backtracking engine
does.  Every alternative consumes at least one character. -/
def tryMatch (cs : List Char) (atStart : Bool) : Option (List Char) :=
  match matchStepWord cs with
  | some r => some r
  | none =>
    match (if atStart then matchNumDotStart cs else none) with
    | some r => some r
    | none =>
      match matchNlNumDot cs with
      | some r => some r
      | none => matchNlBullet cs

/-- The scanning loop of re.split on the step pattern: walk the string
left to right, cutting a part at every leftmost non-overlapping match.
The fuel argument only bounds the recursion; since every match consumes
at least one character, fuel exceeding the input length is never
exhausted. -/
def scanSplit : Nat → List Char → Bool → List Char → List (List Char)
  | 0, cs, _, acc => [acc.reverse ++ cs]
  | _ + 1, [], _, acc => [acc.reverse]
  | fuel + 1, c :: cs, atStart, acc =>
    match tryMatch (c :: cs) atStart with
    | some rest => acc.reverse :: scanSplit fuel rest false []
    | none => scanSplit fuel cs false (c :: acc)

/-- Model of re.split with the step pattern of generate_detailed_plan;
the pattern has no capture group, so only the parts between matches are
returned. -/
def reSplitStepPattern (s : String) : List String :=
  (scanSplit (s.length + 1) s.toList true []).map String.mk

/-- One entry of the purification plan. -/
structure PlanStep where
  title : String
  description : String
deriving DecidableEq

/-- The parsing loop of generate_detailed_plan (lines 184 to 195): when
the instructions string is truthy, split it on the step pattern and keep
each part whose stripped text is non-empty and longer than ten
characters, titling it by its raw enumerate index plus one. -/
def stepsFromInstructions (instructions : String) : List PlanStep :=
  if instructions == "" then []
  else
    (reSplitStepPattern instructions).enum.filterMap (fun ip =>
      let p := pyStrip ip.2
      if p != "" && p.length > 10 then
        some { title := "Step " ++ toString (ip.1 + 1), description := p }
      else none)

/-- The static fallback plan of generate_detailed_plan (lines 198 to
203). -/
def staticFallbackPlan : List PlanStep :=
  [{ title := "Filter water",
     description := "Use clean cloth or filter to remove visible particles." },
   { title := "Disinfect",
     description := "Boil for 1 minute or use purification tablets." },
   { title := "Safe storage",
     description := "Store in clean containers, avoid recontamination." }]

/-- The final selection of generate_detailed_plan: substitute the static
plan when fewer than two steps were parsed, then keep at most the first
three steps. -/
def finishPlan (steps : List PlanStep) : List PlanStep :=
  (if steps.length < 2 then staticFallbackPlan else steps).take 3

/-- Serialize a FinalReport back to the dict shape it has in Python, as
generate_detailed_plan embeds it into the context it sends to the
model. -/
def finalReportToJson (fr : FinalReport) : Json :=
  Json.jobj
    [("water_health_percent", Json.jstr fr.water_health_percent),
     ("current_water_use_cases", fr.current_water_use_cases),
     ("potential_dangers", fr.potential_dangers),
     ("purify_for_selected_use", fr.purify_for_selected_use)]

/-- The guarded dict access (analysis or dict()).get(key) used when
generate_detailed_plan builds its context. -/
def analysisGet (analysis : Option Json) (key : String) : Json :=
  match analysis with
  | some (Json.jobj kvs) => (kvs.lookup key).getD Json.jnull
  | _ => Json.jnull

/-- The context string generate_detailed_plan builds and sends to the
model (lines 161 to 175): the finalized report and the waterbody and
location parts of the analysis, serialized, followed by the fixed
instruction sentences. -/
def planContextInput (final_result : FinalReport) (analysis : Option Json) : String :=
  let ctx := Json.jobj
    [("final", finalReportToJson final_result),
     ("waterbody", analysisGet analysis "waterbody"),
     ("location", analysisGet analysis "location")]
  String.intercalate ". "
    ["Context: " ++ ctx.dump,
     "Generate 2-3 practical purification steps.",
     "Each step should have a clear title and brief description.",
     "Focus on effective, realistic methods."]

/-- Model of generate_detailed_plan in judge.py.  The function builds a
context from the finalized report, consults the completion collaborator
through analyze_water once more, and pattern-splits the
purification_instructions text of that fresh result.  The report shape
produced by finalize_report has no selected_use key, so the use case sent
to the model is the literal drinking default.  A truthy non-string
instructions value makes re.split raise, modelled by the error case; a
falsy one skips the split, leaving no parsed steps.  The second
component counts completion-API invocations. -/
def generateDetailedPlan (oracle : String → Except String String)
    (final_result : FinalReport) (analysis : Option Json) :
    Except String (List PlanStep) × Nat :=
  let rc := analyzeWaterSimple oracle (planContextInput final_result analysis) "drinking"
  match rc.1.getD "purification_instructions" (Json.jstr "") with
  | Json.jstr s => (Except.ok (finishPlan (stepsFromInstructions s)), rc.2)
  | v =>
    if pyTruthy v then
      (Except.error "TypeError: expected string or bytes-like object", rc.2)
    else (Except.ok (finishPlan []), rc.2)

/-- Modelled from the spec: the plan derivation the specification
describes for PlanGenerator, which pattern-splits the
purify_for_selected_use text of the finalized report itself, with no
further completion-model interaction.  Stated only to be compared with
generateDetailedPlan, which is translated from the source. -/
def specPlanOfReport (fr : FinalReport) : List PlanStep :=
  finishPlan (stepsFromInstructions
    (match fr.purify_for_selected_use with
     | Json.jstr s => s
     | _ => ""))

/-- Invariant tying the two module-level cache containers of judge.py
together: the cache keys, read off in storage order, are exactly the
order ledger, the ledger has no duplicates, and it holds at most 32
entries. -/
def CacheState.Inv (st : CacheState) : Prop :=
  st.cache.map Prod.fst = st.order ∧ st.order.Nodup ∧ st.order.length ≤ 32

/-- A completion collaborator whose API call always raises, used as a
concrete instantiation in witnesses and counterexamples. -/
def oracleDown : String → Except String String := fun _ => Except.error "provider down"

/-- The report the fallback path produces for the empty combined input
under the drinking use case, spelled out literally. -/
def c1Report : FinalReport :=
  { water_health_percent := "50%",
    current_water_use_cases := Json.jstr "Unable to fully assess safety for drinking use. Exercise caution and consider professional testing. Basic filtration and disinfection recommended.",
    potential_dangers := Json.jstr "Potential risks include microbial contamination and chemical impurities. Professional water testing advised for accurate risk assessment.",
    purify_for_selected_use := Json.jstr "Filter through clean cloth, boil for 1 minute, or use purification tablets. Store in clean containers and avoid recontamination." }

/-- The cache state after one finalize_report call on the empty combined
input under the drinking use case against the always-failing
collaborator. -/
def c1State : CacheState :=
  { cache := [("\x7b\x7d\ndrinking", c1Report)], order := ["\x7b\x7d\ndrinking"] }

/-- Concrete cache key family used to populate a full 32-entry cache
state in witnesses. -/
def c2Key (i : Nat) : String := finalizeKey (Json.jstr ("k" ++ toString i)) "drinking"

/-- A fixed report value stored in the witness cache state. -/
def c2Report : FinalReport :=
  { water_health_percent := "50%",
    current_water_use_cases := Json.jstr "a",
    potential_dangers := Json.jstr "b",
    purify_for_selected_use := Json.jstr "c" }

/-- A cache state holding exactly 32 distinct keys in insertion order. -/
def c2State : CacheState :=
  { cache := (List.range 32).map (fun i => (c2Key i, c2Report)),
    order := (List.range 32).map c2Key }

/-- The 31 keys that remain after the first key of the witness cache
state. -/
def c2RestKeys : List String := (List.range 31).map (fun i => c2Key (i + 1))

/-- A collaborator returning a fixed short purification text, used to
exhibit where the plan text really comes from. -/
def c3Oracle : String → Except String String :=
  fun _ => Except.ok "\x7b\"purification_instructions\": \"Use chlorine tablets and wait thirty minutes before use.\"\x7d"

/-- A finalized report whose own purify text carries two long step-marked
segments, so a split of the report text would yield a two-step plan. -/
def c3Report : FinalReport :=
  { water_health_percent := "50%",
    current_water_use_cases := Json.jstr "x",
    potential_dangers := Json.jstr "y",
    purify_for_selected_use := Json.jstr "Step 1: AAAAAAAAAAAAAAAAAAAA. Step 2: BBBBBBBBBBBBBBBBBBB." }

/-- A collaborator returning exactly the step-marked fixture text of the
specification as the purification instructions. -/
def c4StepOracle : String → Except String String :=
  fun _ => Except.ok "\x7b\"purification_instructions\": \"Step 1: Filter. Step 2: Boil. Step 3: Store.\"\x7d"

/-- A collaborator returning a single undelimited sentence as the
purification instructions. -/
def c4PlainOracle : String → Except String String :=
  fun _ => Except.ok "\x7b\"purification_instructions\": \"Boil the water before drinking it to make it safe.\"\x7d"

/-- A detailed assessment of exactly 799 characters. -/
def d799 : String := String.mk (List.replicate 799 'a')

/-- A detailed assessment of exactly 800 characters. -/
def d800 : String := String.mk (List.replicate 800 'a')

/-- A parsed comprehensive result whose detailed assessment has 799
characters. -/
def c5r799 : List (String × Json) := [("detailed_assessment", Json.jstr d799)]

/-- A parsed comprehensive result whose detailed assessment has 800
characters. -/
def c5r800 : List (String × Json) := [("detailed_assessment", Json.jstr d800)]

/-- A collaborator returning prose with no brace pair. -/
def c6NoBraceOracle : String → Except String String :=
  fun _ => Except.ok "no braces in this reply"

/-- A collaborator returning a brace span that is not valid JSON. -/
def c6BadJsonOracle : String → Except String String :=
  fun _ => Except.ok "x \x7bnot json\x7d y"

/-- A collaborator returning the fixture text of the specification, a
JSON object embedded between prose. -/
def c6GoodOracle : String → Except String String :=
  fun _ => Except.ok "blah \x7b\"a\":1\x7d trailing"

theorem lookup_eq_none_iff {β : Type} (l : List (String × β)) (k : String) :
    l.lookup k = none ↔ k ∉ l.map Prod.fst := by
  induction l with
  | nil => simp [List.lookup]
  | cons hd tl ih =>
    obtain ⟨a, b⟩ := hd
    by_cases h : k = a
    · subst h
      simp [List.lookup]
    · have hb : (k == a) = false := beq_eq_false_iff_ne.mpr h
      simp [List.lookup, hb, ih, h]

theorem lookup_append_left {β : Type} {l1 : List (String × β)} (l2 : List (String × β))
    {k : String} {v : β} (h : l1.lookup k = some v) : (l1 ++ l2).lookup k = some v := by
  induction l1 with
  | nil => simp [List.lookup] at h
  | cons hd tl ih =>
    obtain ⟨a, b⟩ := hd
    simp only [List.lookup, List.cons_append] at h ⊢
    cases hab : (k == a) with
    | true => rw [hab] at h; exact h
    | false => rw [hab] at h; exact ih h

theorem lookup_append_right {β : Type} {l1 : List (String × β)} (l2 : List (String × β))
    {k : String} (h : l1.lookup k = none) : (l1 ++ l2).lookup k = l2.lookup k := by
  induction l1 with
  | nil => simp
  | cons hd tl ih =>
    obtain ⟨a, b⟩ := hd
    simp only [List.lookup, List.cons_append] at h ⊢
    cases hab : (k == a) with
    | true => rw [hab] at h; exact absurd h (by simp)
    | false => rw [hab] at h; exact ih h

theorem lookup_mem_isSome {β : Type} {l : List (String × β)} {k : String}
    (h : k ∈ l.map Prod.fst) : ∃ v, l.lookup k = some v := by
  induction l with
  | nil => simp at h
  | cons hd tl ih =>
    obtain ⟨a, b⟩ := hd
    by_cases hk : k = a
    · subst hk
      exact ⟨b, by simp [List.lookup]⟩
    · have hb : (k == a) = false := beq_eq_false_iff_ne.mpr hk
      simp only [List.map_cons, List.mem_cons] at h
      rcases h with h | h
      · exact absurd h hk
      · obtain ⟨v, hv⟩ := ih h
        exact ⟨v, by simp [List.lookup, hb, hv]⟩

theorem lookup_filter_ne {β : Type} (l : List (String × β)) {k a : String} (h : k ≠ a) :
    (l.filter (fun kv => kv.1 != a)).lookup k = l.lookup k := by
  induction l with
  | nil => simp
  | cons hd tl ih =>
    obtain ⟨c, b⟩ := hd
    by_cases hc : c = a
    · subst hc
      have : ((c, b).1 != c) = false := by simp
      have hkc : (k == c) = false := beq_eq_false_iff_ne.mpr h
      simp [List.filter, this, List.lookup, hkc, ih]
    · have : ((c, b).1 != a) = true := by simpa using hc
      simp only [List.filter, this]
      cases hkc : (k == c) with
      | true => simp [List.lookup, hkc]
      | false => simp [List.lookup, hkc, ih]

theorem lookup_filter_self {β : Type} (l : List (String × β)) (a : String) :
    (l.filter (fun kv => kv.1 != a)).lookup a = none := by
  induction l with
  | nil => simp
  | cons hd tl ih =>
    obtain ⟨c, b⟩ := hd
    by_cases hc : c = a
    · subst hc
      have : ((c, b).1 != c) = false := by simp
      simp [List.filter, this, ih]
    · have h1 : ((c, b).1 != a) = true := by simpa using hc
      have h2 : (a == c) = false := beq_eq_false_iff_ne.mpr (Ne.symm hc)
      simp [List.filter, h1, List.lookup, h2, ih]

theorem filter_ne_of_not_mem {β : Type} {l : List (String × β)} {a : String}
    (h : a ∉ l.map Prod.fst) : l.filter (fun kv => kv.1 != a) = l := by
  induction l with
  | nil => rfl
  | cons hd tl ih =>
    obtain ⟨c, b⟩ := hd
    simp only [List.map_cons, List.mem_cons] at h
    push_neg at h
    have : ((c, b).1 != a) = true := by simpa using (Ne.symm h.1)
    simp [List.filter, this, ih h.2]

theorem lookup_mapReplace {l : List (String × Json)} {k : String} (v : Json)
    (hs : (l.lookup k).isSome) :
    (l.map (fun kv => if kv.1 = k then (k, v) else kv)).lookup k = some v := by
  induction l with
  | nil => simp [List.lookup] at hs
  | cons hd tl ih =>
    obtain ⟨a, b⟩ := hd
    by_cases hk : a = k
    · subst hk
      rw [List.map_cons, if_pos (show (a, b).1 = a from rfl)]
      simp [List.lookup, beq_self_eq_true]
    · have hb2 : (k == a) = false := beq_eq_false_iff_ne.mpr (Ne.symm hk)
      rw [List.map_cons, if_neg (show ¬ (a, b).1 = k from hk)]
      simp only [List.lookup, hb2] at hs ⊢
      exact ih hs

theorem lookup_mapReplace_ne {l : List (String × Json)} {k k2 : String} (v : Json)
    (h : k2 ≠ k) :
    (l.map (fun kv => if kv.1 = k then (k, v) else kv)).lookup k2 = l.lookup k2 := by
  induction l with
  | nil => simp
  | cons hd tl ih =>
    obtain ⟨a, b⟩ := hd
    by_cases hk : a = k
    · subst hk
      have hb : (k2 == a) = false := beq_eq_false_iff_ne.mpr h
      rw [List.map_cons, if_pos (show (a, b).1 = a from rfl)]
      simp only [List.lookup, hb]
      exact ih
    · rw [List.map_cons, if_neg (show ¬ (a, b).1 = k from hk)]
      cases hk2 : (k2 == a) with
      | true => simp [List.lookup, hk2]
      | false => simp only [List.lookup, hk2]; exact ih

theorem lookup_dictSet_self (l : List (String × Json)) (k : String) (v : Json) :
    (dictSet l k v).lookup k = some v := by
  unfold dictSet
  cases hs : (l.lookup k).isSome with
  | true => simp only [if_pos rfl]; exact lookup_mapReplace v hs
  | false =>
    have hn : l.lookup k = none := by
      cases h : l.lookup k
      · rfl
      · rw [h] at hs; simp at hs
    simp only [hs, Bool.false_eq_true, if_false]
    rw [lookup_append_right _ hn]
    simp [List.lookup]

theorem lookup_dictSet_ne (l : List (String × Json)) {k k2 : String} (v : Json)
    (h : k2 ≠ k) : (dictSet l k v).lookup k2 = l.lookup k2 := by
  unfold dictSet
  cases hs : (l.lookup k).isSome with
  | true => simp only [if_pos rfl]; exact lookup_mapReplace_ne v h
  | false =>
    simp only [hs, Bool.false_eq_true, if_false]
    cases h2 : l.lookup k2 with
    | some w => exact lookup_append_left _ h2
    | none =>
      rw [lookup_append_right _ h2]
      have hb : (k2 == k) = false := beq_eq_false_iff_ne.mpr h
      simp [List.lookup, hb]

theorem analyzeWaterSimple_calls (o : String → Except String String) (i u : String) :
    (analyzeWaterSimple o i u).2 = 1 := by
  unfold analyzeWaterSimple
  cases ho : o (promptSimple i u) with
  | error e => simp [ho]
  | ok t =>
    cases hs : extractBraceSpan t with
    | none => simp [ho, hs]
    | some span =>
      cases hp : jsonParse span with
      | none => simp [ho, hs, hp]
      | some j => simp [ho, hs, hp]

theorem analyzeWaterComp_calls (o : String → Except String String) (i u : String) :
    (analyzeWaterComp o i u).2 = 1 := by
  unfold analyzeWaterComp
  cases ho : o (promptComp i u) with
  | error e => simp [ho]
  | ok t =>
    cases hs : extractBraceSpan t with
    | none => simp [ho, hs]
    | some span =>
      cases hp : jsonParseObj span with
      | none => simp [ho, hs, hp]
      | some r =>
        cases hq : qualityGate r i u with
        | error e => simp [ho, hs, hp, hq]
        | ok r2 => simp [ho, hs, hp, hq]

theorem finishPlan_length (steps : List PlanStep) : (finishPlan steps).length ≤ 3 := by
  unfold finishPlan
  by_cases h : steps.length < 2 <;> simp [h, List.length_take]

theorem cachePut_eq_evict (st : CacheState) (k : String) (v : FinalReport)
    (o : String) (os : List String) (ho : st.order = o :: os)
    (hgt : (st.order ++ [k]).length > 32) :
    cachePut st k v =
      { cache := (st.cache ++ [(k, v)]).filter (fun kv => kv.1 != o),
        order := os ++ [k] } := by
  unfold cachePut
  rw [if_pos hgt, ho]
  rfl

theorem cachePut_eq_keep (st : CacheState) (k : String) (v : FinalReport)
    (hle : ¬ (st.order ++ [k]).length > 32) :
    cachePut st k v = { cache := st.cache ++ [(k, v)], order := st.order ++ [k] } := by
  unfold cachePut
  rw [if_neg hle]

theorem cachePut_lookup_self (st : CacheState) (k : String) (v : FinalReport)
    (hmap : st.cache.map Prod.fst = st.order)
    (hnone : cacheLookup st k = none) :
    cacheLookup (cachePut st k v) k = some v := by
  have hk : k ∉ st.order := by
    rw [← hmap]
    exact (lookup_eq_none_iff _ _).mp hnone
  have hlk : (st.cache ++ [(k, v)]).lookup k = some v := by
    rw [lookup_append_right _ hnone]
    simp [List.lookup, beq_self_eq_true]
  by_cases hgt : (st.order ++ [k]).length > 32
  · cases ho : st.order with
    | nil => exfalso; rw [ho] at hgt; simp at hgt
    | cons o os =>
      rw [cachePut_eq_evict st k v o os ho hgt]
      have hne : k ≠ o := by
        intro he
        exact hk (by rw [ho, he]; exact List.mem_cons_self o os)
      unfold cacheLookup
      simp only
      rw [lookup_filter_ne _ hne]
      exact hlk
  · rw [cachePut_eq_keep st k v hgt]
    exact hlk

theorem cachePut_inv (st : CacheState) (k : String) (v : FinalReport)
    (h : st.Inv) (hnone : cacheLookup st k = none) : (cachePut st k v).Inv := by
  obtain ⟨hmap, hnd, hlen⟩ := h
  have hk : k ∉ st.order := by
    rw [← hmap]
    exact (lookup_eq_none_iff _ _).mp hnone
  have hmap1 : (st.cache ++ [(k, v)]).map Prod.fst = st.order ++ [k] := by
    simp [List.map_append, hmap]
  have hnd1 : (st.order ++ [k]).Nodup := by
    simp [List.nodup_append, hnd, List.disjoint_singleton]
    intro hmem
    exact hk hmem
  by_cases hgt : (st.order ++ [k]).length > 32
  · cases ho : st.order with
    | nil => exfalso; rw [ho] at hgt; simp at hgt
    | cons o os =>
      rw [cachePut_eq_evict st k v o os ho hgt]
      have hnode : o ∉ os := by
        rw [ho] at hnd
        exact (List.nodup_cons.mp hnd).1
      have hko : k ≠ o := by
        intro he
        exact hk (by rw [ho, he]; exact List.mem_cons_self o os)
      refine ⟨?_, ?_, ?_⟩
      · cases hc : st.cache with
        | nil =>
          exfalso
          rw [hc] at hmap
          rw [ho] at hmap
          simp at hmap
        | cons p ps =>
          have hmap2 : (p :: ps).map Prod.fst = o :: os := by rw [← hc, hmap, ho]
          simp only [List.map_cons, List.cons.injEq] at hmap2
          obtain ⟨hp1, hps⟩ := hmap2
          have hnotmem : o ∉ (ps ++ [(k, v)]).map Prod.fst := by
            rw [List.map_append, hps]
            simp only [List.mem_append, List.map_cons, List.map_nil,
              List.mem_singleton]
            rintro (hmem | hmem)
            · exact hnode hmem
            · exact hko hmem.symm
          have hpfalse : (p.1 != o) = false := by simp [hp1]
          have hfilter : ((p :: ps) ++ [(k, v)]).filter (fun kv => kv.1 != o) =
              ps ++ [(k, v)] := by
            simp only [List.cons_append, List.filter, hpfalse]
            exact filter_ne_of_not_mem hnotmem
          simp only [hc, hfilter, List.map_append, hps]
          rfl
      · have : (o :: (os ++ [k])).Nodup := by
          have h2 := hnd1
          rw [ho] at h2
          exact h2
        exact (List.nodup_cons.mp this).2
      · have : st.order.length ≤ 32 := hlen
        rw [ho] at this
        simp only [List.length_cons] at this
        simp only [List.length_append, List.length_cons, List.length_nil]
        omega
  · rw [cachePut_eq_keep st k v hgt]
    refine ⟨hmap1, hnd1, ?_⟩
    simp only [List.length_append, List.length_cons, List.length_nil] at hgt ⊢
    omega

theorem finalizeReport_shape (o : String → Except String String) (st : CacheState)
    (c : Json) (uc : String) (fr : FinalReport) (st1 : CacheState) (n : Nat)
    (h : finalizeReport o st c uc = Except.ok (fr, st1, n)) :
    n = 1 ∧
    ((cacheLookup st (finalizeKey c uc) = some fr ∧ st1 = st) ∨
     (cacheLookup st (finalizeKey c uc) = none ∧
      st1 = cachePut st (finalizeKey c uc) fr)) := by
  unfold finalizeReport at h
  cases hloc : locationHintE c with
  | error e => rw [hloc] at h; exact absurd h (by simp)
  | ok hint =>
    rw [hloc] at h
    simp only at h
    cases hcl : cacheLookup st (finalizeKey c uc) with
    | some cached =>
      rw [hcl] at h
      simp only [Except.ok.injEq, Prod.mk.injEq] at h
      obtain ⟨h1, h2, h3⟩ := h
      refine ⟨?_, Or.inl ⟨?_, h2.symm⟩⟩
      · rw [← h3]
        exact analyzeWaterSimple_calls o _ uc
      · rw [h1]
    | none =>
      rw [hcl] at h
      simp only [Except.ok.injEq, Prod.mk.injEq] at h
      obtain ⟨h1, h2, h3⟩ := h
      refine ⟨?_, Or.inr ⟨rfl, ?_⟩⟩
      · rw [← h3]
        exact analyzeWaterSimple_calls o _ uc
      · rw [← h1, ← h2]

theorem finalizeReport_hit (o : String → Except String String) (st : CacheState)
    (c : Json) (uc : String) (r : FinalReport) (hint : Json)
    (hloc : locationHintE c = Except.ok hint)
    (hcl : cacheLookup st (finalizeKey c uc) = some r) :
    finalizeReport o st c uc = Except.ok (r, st, 1) := by
  unfold finalizeReport
  rw [hloc]
  simp only [hcl]
  rw [analyzeWaterSimple_calls o _ uc]


theorem finalizeReport_inv (o : String → Except String String) (st : CacheState)
    (c : Json) (uc : String) (h : st.Inv) :
    ∀ fr st1 n, finalizeReport o st c uc = Except.ok (fr, st1, n) → st1.Inv := by
  intro fr st1 n hok
  obtain ⟨-, hcase⟩ := finalizeReport_shape o st c uc fr st1 n hok
  rcases hcase with ⟨-, h2⟩ | ⟨h1, h2⟩
  · rw [h2]; exact h
  · rw [h2]; exact cachePut_inv st _ fr h h1

theorem runFinalize_inv (o : String → Except String String)
    (reqs : List (Json × String)) :
    ∀ st : CacheState, st.Inv → (runFinalize o reqs st).Inv := by
  induction reqs with
  | nil => intro st h; exact h
  | cons hd tl ih =>
    intro st h
    obtain ⟨c, uc⟩ := hd
    unfold runFinalize
    cases hcall : finalizeReport o st c uc with
    | error e => exact ih st h
    | ok r =>
      obtain ⟨fr, st1, n⟩ := r
      exact ih st1 (finalizeReport_inv o st c uc h fr st1 n hcall)

theorem enhance_lookup_emer (r : List (String × Json)) (i u : String) :
    (enhanceResponse r i u).lookup "emergency_protocols" = some (Json.jstr enhEmer) := by
  unfold enhanceResponse
  rw [lookup_dictSet_self]

theorem enhance_lookup_long (r : List (String × Json)) (i u : String) :
    (enhanceResponse r i u).lookup "long_term_considerations" = some (Json.jstr enhLong) := by
  unfold enhanceResponse
  rw [lookup_dictSet_ne _ _ (show ("long_term_considerations" : String) ≠ "emergency_protocols" by decide),
    lookup_dictSet_self]

theorem enhance_lookup_sci (r : List (String × Json)) (i u : String) :
    (enhanceResponse r i u).lookup "scientific_rationale" = some (Json.jstr enhSci) := by
  unfold enhanceResponse
  rw [lookup_dictSet_ne _ _ (show ("scientific_rationale" : String) ≠ "emergency_protocols" by decide),
    lookup_dictSet_ne _ _ (show ("scientific_rationale" : String) ≠ "long_term_considerations" by decide),
    lookup_dictSet_self]

theorem enhance_lookup_env (r : List (String × Json)) (i u : String) :
    (enhanceResponse r i u).lookup "environmental_context" = some (Json.jstr enhEnv) := by
  unfold enhanceResponse
  rw [lookup_dictSet_ne _ _ (show ("environmental_context" : String) ≠ "emergency_protocols" by decide),
    lookup_dictSet_ne _ _ (show ("environmental_context" : String) ≠ "long_term_considerations" by decide),
    lookup_dictSet_ne _ _ (show ("environmental_context" : String) ≠ "scientific_rationale" by decide),
    lookup_dictSet_self]

theorem enhance_lookup_purif (r : List (String × Json)) (i u : String) :
    (enhanceResponse r i u).lookup "purification_instructions" = some (Json.jstr (getDetailedPurificationSteps u)) := by
  unfold enhanceResponse
  rw [lookup_dictSet_ne _ _ (show ("purification_instructions" : String) ≠ "emergency_protocols" by decide),
    lookup_dictSet_ne _ _ (show ("purification_instructions" : String) ≠ "long_term_considerations" by decide),
    lookup_dictSet_ne _ _ (show ("purification_instructions" : String) ≠ "scientific_rationale" by decide),
    lookup_dictSet_ne _ _ (show ("purification_instructions" : String) ≠ "environmental_context" by decide),
    lookup_dictSet_self]

theorem enhance_lookup_risk (r : List (String × Json)) (i u : String) :
    (enhanceResponse r i u).lookup "risk_analysis" = some (Json.jstr enhRisk) := by
  unfold enhanceResponse
  rw [lookup_dictSet_ne _ _ (show ("risk_analysis" : String) ≠ "emergency_protocols" by decide),
    lookup_dictSet_ne _ _ (show ("risk_analysis" : String) ≠ "long_term_considerations" by decide),
    lookup_dictSet_ne _ _ (show ("risk_analysis" : String) ≠ "scientific_rationale" by decide),
    lookup_dictSet_ne _ _ (show ("risk_analysis" : String) ≠ "environmental_context" by decide),
    lookup_dictSet_ne _ _ (show ("risk_analysis" : String) ≠ "purification_instructions" by decide),
    lookup_dictSet_self]

theorem enhance_lookup_safety (r : List (String × Json)) (i u : String) :
    (enhanceResponse r i u).lookup "current_safety_analysis" = some (Json.jstr (enhCurrentSafety u)) := by
  unfold enhanceResponse
  rw [lookup_dictSet_ne _ _ (show ("current_safety_analysis" : String) ≠ "emergency_protocols" by decide),
    lookup_dictSet_ne _ _ (show ("current_safety_analysis" : String) ≠ "long_term_considerations" by decide),
    lookup_dictSet_ne _ _ (show ("current_safety_analysis" : String) ≠ "scientific_rationale" by decide),
    lookup_dictSet_ne _ _ (show ("current_safety_analysis" : String) ≠ "environmental_context" by decide),
    lookup_dictSet_ne _ _ (show ("current_safety_analysis" : String) ≠ "purification_instructions" by decide),
    lookup_dictSet_ne _ _ (show ("current_safety_analysis" : String) ≠ "risk_analysis" by decide),
    lookup_dictSet_self]

theorem enhance_lookup_da (r : List (String × Json)) (i u : String) :
    (enhanceResponse r i u).lookup "detailed_assessment" = some (Json.jstr (detailedAssessments i u)) := by
  unfold enhanceResponse
  rw [lookup_dictSet_ne _ _ (show ("detailed_assessment" : String) ≠ "emergency_protocols" by decide),
    lookup_dictSet_ne _ _ (show ("detailed_assessment" : String) ≠ "long_term_considerations" by decide),
    lookup_dictSet_ne _ _ (show ("detailed_assessment" : String) ≠ "scientific_rationale" by decide),
    lookup_dictSet_ne _ _ (show ("detailed_assessment" : String) ≠ "environmental_context" by decide),
    lookup_dictSet_ne _ _ (show ("detailed_assessment" : String) ≠ "purification_instructions" by decide),
    lookup_dictSet_ne _ _ (show ("detailed_assessment" : String) ≠ "risk_analysis" by decide),
    lookup_dictSet_ne _ _ (show ("detailed_assessment" : String) ≠ "current_safety_analysis" by decide),
    lookup_dictSet_self]

/-- C10: after every call to finalize_report, starting from the empty
module-level state, the keys stored in the finalize cache are exactly
the entries of the order ledger (pointwise in storage order, hence also
as sets), the ledger contains no duplicate keys, and both containers
hold at most 32 entries. -/
theorem c10_cache_invariant (o : String → Except String String)
    (reqs : List (Json × String)) :
    (runFinalize o reqs initialCacheState).cache.map Prod.fst =
      (runFinalize o reqs initialCacheState).order ∧
    (∀ k, k ∈ (runFinalize o reqs initialCacheState).cache.map Prod.fst ↔
      k ∈ (runFinalize o reqs initialCacheState).order) ∧
    (runFinalize o reqs initialCacheState).order.Nodup ∧
    (runFinalize o reqs initialCacheState).cache.length ≤ 32 ∧
    (runFinalize o reqs initialCacheState).order.length ≤ 32 := by
  have hinv : (runFinalize o reqs initialCacheState).Inv :=
    runFinalize_inv o reqs initialCacheState ⟨rfl, List.nodup_nil, by decide⟩
  obtain ⟨hmap, hnd, hlen⟩ := hinv
  refine ⟨hmap, fun k => by rw [hmap], hnd, ?_, hlen⟩
  have h2 : (runFinalize o reqs initialCacheState).cache.length =
      (runFinalize o reqs initialCacheState).order.length := by
    rw [← hmap, List.length_map]
  omega

/-- C1, amended: a second finalize_report call with the identical
(combined, use_case) pair does return the cached FinalReport stored by
the first call — the very entry sitting in the cache — but it still
performs exactly one completion-API invocation, because the source
consults the completion client and builds the fresh result before it
ever reads the cache. -/
theorem c1_second_call_cached (o : String → Except String String) (st : CacheState)
    (c : Json) (uc : String) (fr1 : FinalReport) (st1 : CacheState) (n1 : Nat)
    (hInv : st.Inv)
    (h1 : finalizeReport o st c uc = Except.ok (fr1, st1, n1)) :
    cacheLookup st1 (finalizeKey c uc) = some fr1 ∧
    finalizeReport o st1 c uc = Except.ok (fr1, st1, 1) := by
  have hloc : ∃ hint, locationHintE c = Except.ok hint := by
    unfold finalizeReport at h1
    cases hl : locationHintE c with
    | error e => rw [hl] at h1; exact absurd h1 (by simp)
    | ok hint => exact ⟨hint, rfl⟩
  obtain ⟨hint, hloc⟩ := hloc
  obtain ⟨hn, hcase⟩ := finalizeReport_shape o st c uc fr1 st1 n1 h1
  have hcached : cacheLookup st1 (finalizeKey c uc) = some fr1 := by
    rcases hcase with ⟨hsome, hst⟩ | ⟨hnone, hst⟩
    · rw [hst]; exact hsome
    · rw [hst]; exact cachePut_lookup_self st _ fr1 hInv.1 hnone
  exact ⟨hcached, finalizeReport_hit o st1 c uc fr1 hint hloc hcached⟩

/-- C1, counterexample: with the empty combined input already cached, the
second finalize_report call returns the cached report but reports one
completion-API invocation, which differs from the zero-invocation
outcome the claim asserts for that call. -/
theorem c1_counterexample :
    finalizeReport oracleDown c1State (Json.jobj []) "drinking" =
      Except.ok (c1Report, c1State, 1) ∧
    (Except.ok (c1Report, c1State, 1) : Except String (FinalReport × CacheState × Nat)) ≠
      Except.ok (c1Report, c1State, 0) := by
  refine ⟨by rfl, ?_⟩
  intro h
  have h2 := congrArg
    (fun r : Except String (FinalReport × CacheState × Nat) =>
      match r with
      | Except.ok t => t.2.2
      | Except.error _ => 0) h
  simp at h2

/-- C1, witness: a concrete first call from the empty state followed by
the second call on the resulting state. -/
theorem c1_witness :
    initialCacheState.Inv ∧
    finalizeReport oracleDown initialCacheState (Json.jobj []) "drinking" =
      Except.ok (c1Report, c1State, 1) ∧
    cacheLookup c1State (finalizeKey (Json.jobj []) "drinking") = some c1Report ∧
    finalizeReport oracleDown c1State (Json.jobj []) "drinking" =
      Except.ok (c1Report, c1State, 1) := by
  have hInv : initialCacheState.Inv := ⟨rfl, List.nodup_nil, by decide⟩
  have h1 : finalizeReport oracleDown initialCacheState (Json.jobj []) "drinking" =
      Except.ok (c1Report, c1State, 1) := by rfl
  have h2 := c1_second_call_cached oracleDown initialCacheState (Json.jobj [])
    "drinking" c1Report c1State 1 hInv h1
  exact ⟨hInv, h1, h2.1, h2.2⟩

/-- C2: with the ledger full at 32 distinct keys, inserting a 33rd
distinct key evicts exactly the first-inserted key and no other, the new
key is stored, every other key keeps its value, and reads are pure: a
finalize_report call that hits the cache returns the stored report and
leaves the state untouched, so a preceding read cannot protect the first
key (insertion-order FIFO, not LRU). -/
theorem c2_fifo_eviction (st : CacheState) (k1 knew : String) (rest : List String)
    (v : FinalReport)
    (hmap : st.cache.map Prod.fst = st.order)
    (hnd : st.order.Nodup)
    (horder : st.order = k1 :: rest)
    (hlen : st.order.length = 32)
    (hnew : knew ∉ st.order) :
    (cachePut st knew v).order = rest ++ [knew] ∧
    cacheLookup (cachePut st knew v) k1 = none ∧
    cacheLookup (cachePut st knew v) knew = some v ∧
    (∀ k, k ∈ rest → cacheLookup (cachePut st knew v) k = cacheLookup st k) ∧
    (∀ o c uc r hint, locationHintE c = Except.ok hint →
      cacheLookup st (finalizeKey c uc) = some r →
      finalizeReport o st c uc = Except.ok (r, st, 1)) := by
  have hgt : (st.order ++ [knew]).length > 32 := by
    simp only [List.length_append, List.length_cons, List.length_nil, hlen]
    omega
  have heq := cachePut_eq_evict st knew v k1 rest horder hgt
  have hnone : st.cache.lookup knew = none := by
    apply (lookup_eq_none_iff _ _).mpr
    rw [hmap]
    exact hnew
  have hke : knew ≠ k1 := by
    intro he
    exact hnew (by rw [horder, he]; exact List.mem_cons_self _ _)
  refine ⟨?_, ?_, ?_, ?_, ?_⟩
  · rw [heq]
  · rw [heq]
    exact lookup_filter_self _ k1
  · rw [heq]
    show ((st.cache ++ [(knew, v)]).filter (fun kv => kv.1 != k1)).lookup knew = some v
    rw [lookup_filter_ne _ hke, lookup_append_right _ hnone]
    simp [List.lookup, beq_self_eq_true]
  · intro k hk
    rw [heq]
    have hk1 : k ≠ k1 := by
      intro he
      rw [horder] at hnd
      exact (List.nodup_cons.mp hnd).1 (he ▸ hk)
    show ((st.cache ++ [(knew, v)]).filter (fun kv => kv.1 != k1)).lookup k =
      cacheLookup st k
    rw [lookup_filter_ne _ hk1]
    have hmem : k ∈ st.cache.map Prod.fst := by
      rw [hmap, horder]
      exact List.mem_cons_of_mem _ hk
    obtain ⟨w, hw⟩ := lookup_mem_isSome hmem
    rw [lookup_append_left _ hw]
    exact hw.symm
  · intro o c uc r hint hloc hcl
    exact finalizeReport_hit o st c uc r hint hloc hcl

/-- C2, witness: the eviction theorem applied to a concrete full cache
of 32 distinct keys, with a concrete cache-hitting read performed
against the full state. -/
theorem c2_witness :
    (cachePut c2State (c2Key 32) c2Report).order = c2RestKeys ++ [c2Key 32] ∧
    cacheLookup (cachePut c2State (c2Key 32) c2Report) (c2Key 0) = none ∧
    cacheLookup (cachePut c2State (c2Key 32) c2Report) (c2Key 32) = some c2Report ∧
    cacheLookup (cachePut c2State (c2Key 32) c2Report) (c2Key 5) =
      cacheLookup c2State (c2Key 5) ∧
    finalizeReport oracleDown c2State (Json.jstr "k0") "drinking" =
      Except.ok (c2Report, c2State, 1) := by
  have h := c2_fifo_eviction c2State (c2Key 0) (c2Key 32) c2RestKeys c2Report
    rfl (by decide) (by decide) rfl (by decide)
  exact ⟨h.1, h.2.1, h.2.2.1, h.2.2.2.1 (c2Key 5) (by decide),
    h.2.2.2.2 oracleDown (Json.jstr "k0") "drinking" c2Report Json.jnull rfl (by rfl)⟩

theorem generateDetailedPlan_calls (o : String → Except String String)
    (fr : FinalReport) (analysis : Option Json) :
    (generateDetailedPlan o fr analysis).2 = 1 := by
  unfold generateDetailedPlan
  cases hg : (analyzeWaterSimple o (planContextInput fr analysis) "drinking").1.getD
      "purification_instructions" (Json.jstr "") with
  | jstr s => simp [hg, analyzeWaterSimple_calls]
  | jnull => simp [hg, pyTruthy, analyzeWaterSimple_calls]
  | jbool b => cases b <;> simp [hg, pyTruthy, analyzeWaterSimple_calls]
  | jnum m e =>
    simp only [hg]
    split <;> simp [analyzeWaterSimple_calls]
  | jarr xs =>
    simp only [hg]
    split <;> simp [analyzeWaterSimple_calls]
  | jobj kvs =>
    simp only [hg]
    split <;> simp [analyzeWaterSimple_calls]

/-- C3, amended: the plan generator performs exactly one further
completion-model call, derives the plan by pattern-splitting the
purification_instructions text of THAT fresh call result — not the
purify_for_selected_use text of the finalized report it was given — and
the returned plan always has at most 3 steps. -/
theorem c3_plan_from_model (o : String → Except String String)
    (fr : FinalReport) (analysis : Option Json) :
    (generateDetailedPlan o fr analysis).2 = 1 ∧
    (∀ steps, (generateDetailedPlan o fr analysis).1 = Except.ok steps →
      steps.length ≤ 3) ∧
    (∀ s, (analyzeWaterSimple o (planContextInput fr analysis) "drinking").1.getD
        "purification_instructions" (Json.jstr "") = Json.jstr s →
      (generateDetailedPlan o fr analysis).1 =
        Except.ok (finishPlan (stepsFromInstructions s))) := by
  refine ⟨generateDetailedPlan_calls o fr analysis, ?_, ?_⟩
  · intro steps h
    unfold generateDetailedPlan at h
    cases hg : (analyzeWaterSimple o (planContextInput fr analysis) "drinking").1.getD
        "purification_instructions" (Json.jstr "") with
    | jstr s =>
      simp only [hg, Except.ok.injEq] at h
      rw [← h]
      exact finishPlan_length _
    | jnull =>
      simp only [hg, pyTruthy, Bool.false_eq_true, if_false, Except.ok.injEq] at h
      rw [← h]
      exact finishPlan_length _
    | jbool b =>
      cases b with
      | false =>
        simp only [hg, pyTruthy, Bool.false_eq_true, if_false, Except.ok.injEq] at h
        rw [← h]
        exact finishPlan_length _
      | true => simp [hg, pyTruthy] at h
    | jnum m e =>
      simp only [hg] at h
      by_cases hm : pyTruthy (Json.jnum m e) = true
      · rw [if_pos hm] at h
        exact absurd h (by simp)
      · rw [if_neg hm] at h
        simp only [Except.ok.injEq] at h
        rw [← h]
        exact finishPlan_length _
    | jarr xs =>
      simp only [hg] at h
      by_cases hm : pyTruthy (Json.jarr xs) = true
      · rw [if_pos hm] at h
        exact absurd h (by simp)
      · rw [if_neg hm] at h
        simp only [Except.ok.injEq] at h
        rw [← h]
        exact finishPlan_length _
    | jobj kvs =>
      simp only [hg] at h
      by_cases hm : pyTruthy (Json.jobj kvs) = true
      · rw [if_pos hm] at h
        exact absurd h (by simp)
      · rw [if_neg hm] at h
        simp only [Except.ok.injEq] at h
        rw [← h]
        exact finishPlan_length _
  · intro s hg
    unfold generateDetailedPlan
    simp only [hg]

/-- C3, counterexample: at a concrete report whose own purify text would
split into a two-step plan and a collaborator returning a different
instructions text, the plan generator performs one completion call, not
zero, and its plan differs from the plan the specification derives by
splitting the report text. -/
theorem c3_counterexample :
    (generateDetailedPlan c3Oracle c3Report none).2 = 1 ∧
    (generateDetailedPlan c3Oracle c3Report none).1 = Except.ok staticFallbackPlan ∧
    specPlanOfReport c3Report ≠ staticFallbackPlan := by
  refine ⟨by rfl, by rfl, ?_⟩
  intro h
  have h2 : specPlanOfReport c3Report =
      [{ title := "Step 2", description := ": AAAAAAAAAAAAAAAAAAAA." },
       { title := "Step 3", description := ": BBBBBBBBBBBBBBBBBBB." }] := by rfl
  rw [h2] at h
  exact absurd h (by decide)

/-- C3, witness: the amended theorem at a concrete collaborator, report
and instructions text. -/
theorem c3_witness :
    (generateDetailedPlan c3Oracle c3Report none).2 = 1 ∧
    (generateDetailedPlan c3Oracle c3Report none).1 = Except.ok staticFallbackPlan ∧
    staticFallbackPlan.length ≤ 3 ∧
    (generateDetailedPlan c3Oracle c3Report none).1 =
      Except.ok (finishPlan (stepsFromInstructions
        "Use chlorine tablets and wait thirty minutes before use.")) := by
  have h := c3_plan_from_model c3Oracle c3Report none
  refine ⟨h.1, ?_, ?_, ?_⟩
  · exact h.2.2 "Use chlorine tablets and wait thirty minutes before use." (by rfl)
  · exact h.2.1 staticFallbackPlan (by rfl)
  · exact h.2.2 "Use chlorine tablets and wait thirty minutes before use." (by rfl)

/-- C4, amended: on the fixture purify text of the specification the
parser splits off segments whose stripped texts have at most 9
characters, all failing the greater-than-10 length filter, so the plan
generator returns the static 3-step fallback plan rather than three
steps titled Step 1 to Step 3; on a one-sentence text with no step
delimiters it likewise returns the static fallback plan (that half of
the claim holds). -/
theorem c4_fixture_plans :
    stepsFromInstructions "Step 1: Filter. Step 2: Boil. Step 3: Store." = [] ∧
    (generateDetailedPlan c4StepOracle (mkFinalResult (Json.jobj [])) none).1 =
      Except.ok staticFallbackPlan ∧
    (generateDetailedPlan c4PlainOracle (mkFinalResult (Json.jobj [])) none).1 =
      Except.ok staticFallbackPlan := ⟨rfl, rfl, rfl⟩

/-- C4, counterexample: fed the fixture text through the collaborator,
the plan generator returns the static fallback plan, whose titles are
not the Step 1 to Step 3 titles the claim requires. -/
theorem c4_counterexample :
    (generateDetailedPlan c4StepOracle (mkFinalResult (Json.jobj [])) none).1 =
      Except.ok staticFallbackPlan ∧
    staticFallbackPlan.map PlanStep.title ≠ ["Step 1", "Step 2", "Step 3"] :=
  ⟨rfl, by decide⟩

/-- C5: for a parsed comprehensive-shape result whose detailed
assessment is a string, a length below 800 characters makes the quality
gate replace every long-form text field with the deterministic
use-case-keyed template paragraph, discarding the model text for those
fields wholesale, while a length of 800 or more returns the result
untouched; the completion model is consulted exactly once per
analyze_water call on every path, so the gate never triggers a second
call. -/
theorem c5_quality_gate (r : List (String × Json)) (input_data use_case : String)
    (d : String)
    (hd : r.lookup "detailed_assessment" = some (Json.jstr d)) :
    (d.length < 800 →
      qualityGate r input_data use_case =
        Except.ok (enhanceResponse r input_data use_case) ∧
      (enhanceResponse r input_data use_case).lookup "detailed_assessment" =
        some (Json.jstr (detailedAssessments input_data use_case)) ∧
      (enhanceResponse r input_data use_case).lookup "current_safety_analysis" =
        some (Json.jstr (enhCurrentSafety use_case)) ∧
      (enhanceResponse r input_data use_case).lookup "risk_analysis" =
        some (Json.jstr enhRisk) ∧
      (enhanceResponse r input_data use_case).lookup "purification_instructions" =
        some (Json.jstr (getDetailedPurificationSteps use_case)) ∧
      (enhanceResponse r input_data use_case).lookup "environmental_context" =
        some (Json.jstr enhEnv) ∧
      (enhanceResponse r input_data use_case).lookup "scientific_rationale" =
        some (Json.jstr enhSci) ∧
      (enhanceResponse r input_data use_case).lookup "long_term_considerations" =
        some (Json.jstr enhLong) ∧
      (enhanceResponse r input_data use_case).lookup "emergency_protocols" =
        some (Json.jstr enhEmer)) ∧
    (800 ≤ d.length → qualityGate r input_data use_case = Except.ok r) ∧
    (∀ o, (analyzeWaterComp o input_data use_case).2 = 1) := by
  refine ⟨fun hlt => ?_, fun hge => ?_, fun o => analyzeWaterComp_calls o _ _⟩
  · refine ⟨?_, enhance_lookup_da r input_data use_case,
      enhance_lookup_safety r input_data use_case,
      enhance_lookup_risk r input_data use_case,
      enhance_lookup_purif r input_data use_case,
      enhance_lookup_env r input_data use_case,
      enhance_lookup_sci r input_data use_case,
      enhance_lookup_long r input_data use_case,
      enhance_lookup_emer r input_data use_case⟩
    unfold qualityGate
    rw [hd]
    simp only [hlt, if_pos]
  · unfold qualityGate
    simp only [hd]
    rw [if_neg (by omega)]

/-- C5, witness: the gate applied to concrete parsed results with
detailed assessments of 799 and 800 characters. -/
theorem c5_witness :
    c5r799.lookup "detailed_assessment" = some (Json.jstr d799) ∧
    d799.length < 800 ∧
    qualityGate c5r799 "strip data" "drinking" =
      Except.ok (enhanceResponse c5r799 "strip data" "drinking") ∧
    (enhanceResponse c5r799 "strip data" "drinking").lookup "risk_analysis" =
      some (Json.jstr enhRisk) ∧
    800 ≤ d800.length ∧
    qualityGate c5r800 "strip data" "drinking" = Except.ok c5r800 := by
  have h799 := c5_quality_gate c5r799 "strip data" "drinking" d799 rfl
  have h800 := c5_quality_gate c5r800 "strip data" "drinking" d800 rfl
  have hl1 : d799.length < 800 := by decide
  have hl2 : (800 : Nat) ≤ d800.length := by decide
  have hA := h799.1 hl1
  exact ⟨rfl, hl1, hA.1, hA.2.2.2.1, hl2, h800.2.1 hl2⟩

/-- C6: the extractor takes the span from the first opening brace to the
last closing brace and parses it as JSON — on the fixture text it yields
the parsed object — and in both service variants a missing brace span or
an invalid span never propagates an exception: the respective fallback
generator record is returned instead, while a valid span returns the
parsed object. -/
theorem c6_extractor (i u : String) :
    extractBraceSpan "blah \x7b\"a\":1\x7d trailing" = some "\x7b\"a\":1\x7d" ∧
    jsonParse "\x7b\"a\":1\x7d" = some (Json.jobj [("a", Json.jnum 1 0)]) ∧
    (∀ o t, o (promptSimple i u) = Except.ok t → extractBraceSpan t = none →
      analyzeWaterSimple o i u = (createConciseFallback i u none, 1)) ∧
    (∀ o t span, o (promptSimple i u) = Except.ok t →
      extractBraceSpan t = some span → jsonParse span = none →
      analyzeWaterSimple o i u =
        (createConciseFallback i u (some (jsonDecodeMsg span)), 1)) ∧
    (∀ o t span j, o (promptSimple i u) = Except.ok t →
      extractBraceSpan t = some span → jsonParse span = some j →
      analyzeWaterSimple o i u = (j, 1)) ∧
    (∀ o t, o (promptComp i u) = Except.ok t → extractBraceSpan t = none →
      analyzeWaterComp o i u = (createDetailedFallback i u none, 1)) ∧
    (∀ o t span, o (promptComp i u) = Except.ok t →
      extractBraceSpan t = some span → jsonParseObj span = none →
      analyzeWaterComp o i u =
        (createDetailedFallback i u (some (jsonDecodeMsg span)), 1)) := by
  refine ⟨rfl, rfl, ?_, ?_, ?_, ?_, ?_⟩
  · intro o t h1 h2
    unfold analyzeWaterSimple
    simp only [h1, h2]
  · intro o t span h1 h2 h3
    unfold analyzeWaterSimple
    simp only [h1, h2, h3]
  · intro o t span j h1 h2 h3
    unfold analyzeWaterSimple
    simp only [h1, h2, h3]
  · intro o t h1 h2
    unfold analyzeWaterComp
    simp only [h1, h2]
  · intro o t span h1 h2 h3
    unfold analyzeWaterComp
    simp only [h1, h2, h3]

/-- C6, witness: the three extraction outcomes exercised with concrete
collaborators in both service variants. -/
theorem c6_witness :
    extractBraceSpan "no braces in this reply" = none ∧
    analyzeWaterSimple c6NoBraceOracle "i" "drinking" =
      (createConciseFallback "i" "drinking" none, 1) ∧
    extractBraceSpan "x \x7bnot json\x7d y" = some "\x7bnot json\x7d" ∧
    jsonParse "\x7bnot json\x7d" = none ∧
    analyzeWaterSimple c6BadJsonOracle "i" "drinking" =
      (createConciseFallback "i" "drinking" (some (jsonDecodeMsg "\x7bnot json\x7d")), 1) ∧
    analyzeWaterSimple c6GoodOracle "i" "drinking" =
      (Json.jobj [("a", Json.jnum 1 0)], 1) ∧
    analyzeWaterComp c6NoBraceOracle "i" "drinking" =
      (createDetailedFallback "i" "drinking" none, 1) ∧
    analyzeWaterComp c6BadJsonOracle "i" "drinking" =
      (createDetailedFallback "i" "drinking" (some (jsonDecodeMsg "\x7bnot json\x7d")), 1) := by
  have h := c6_extractor "i" "drinking"
  exact ⟨rfl,
    h.2.2.1 c6NoBraceOracle "no braces in this reply" rfl rfl,
    rfl, rfl,
    h.2.2.2.1 c6BadJsonOracle "x \x7bnot json\x7d y" "\x7bnot json\x7d" rfl rfl rfl,
    h.2.2.2.2.1 c6GoodOracle "blah \x7b\"a\":1\x7d trailing" "\x7b\"a\":1\x7d"
      (Json.jobj [("a", Json.jnum 1 0)]) rfl rfl rfl,
    h.2.2.2.2.2.1 c6NoBraceOracle "no braces in this reply" rfl rfl,
    h.2.2.2.2.2.2 c6BadJsonOracle "x \x7bnot json\x7d y" "\x7bnot json\x7d" rfl rfl rfl⟩

theorem append_ne_empty_right (a b : String) (h : b ≠ "") : a ++ b ≠ "" := by
  intro he
  apply h
  have hl := congrArg String.length he
  rw [String.length_append, String.length_empty] at hl
  have hb : b.length = 0 := by omega
  cases b with
  | mk data =>
    cases data with
    | nil => rfl
    | cons c cs => simp [String.length] at hb

theorem getDetailedPurificationSteps_ne_empty (uc : String) :
    getDetailedPurificationSteps uc ≠ "" := by
  unfold getDetailedPurificationSteps
  split_ifs <;> decide

theorem getDetailedPurificationSteps_unknown (uc : String)
    (h1 : uc ≠ "drinking") (h2 : uc ≠ "irrigation") (h3 : uc ≠ "human")
    (h4 : uc ≠ "animals") : getDetailedPurificationSteps uc = stepsDrinking := by
  unfold getDetailedPurificationSteps
  rw [if_neg (by simp [h1]), if_neg (by simp [h2]), if_neg (by simp [h3]),
    if_neg (by simp [h4])]

/-- C7: for every use-case string, also outside the documented set, the
fallback generator returns a complete comprehensive record: every
contracted field is present with a non-empty value; when the use case is
none of the four known keys, the use-case-keyed purification content
falls back to the drinking template, while the use_case field still
carries the caller literal label. -/
theorem c7_fallback_total (input uc : String) (err : Option String) :
    (createDetailedFallback input uc err).lookup "health_percentage" =
      some (Json.jnum 45 0) ∧
    (∃ s, (createDetailedFallback input uc err).lookup "detailed_assessment" =
      some (Json.jstr s) ∧ s ≠ "") ∧
    (∃ s, (createDetailedFallback input uc err).lookup "current_safety_analysis" =
      some (Json.jstr s) ∧ s ≠ "") ∧
    (∃ s, (createDetailedFallback input uc err).lookup "risk_analysis" =
      some (Json.jstr s) ∧ s ≠ "") ∧
    (∃ s, (createDetailedFallback input uc err).lookup "purification_instructions" =
      some (Json.jstr s) ∧ s ≠ "") ∧
    (∃ s, (createDetailedFallback input uc err).lookup "environmental_context" =
      some (Json.jstr s) ∧ s ≠ "") ∧
    (∃ s, (createDetailedFallback input uc err).lookup "scientific_rationale" =
      some (Json.jstr s) ∧ s ≠ "") ∧
    (∃ s, (createDetailedFallback input uc err).lookup "long_term_considerations" =
      some (Json.jstr s) ∧ s ≠ "") ∧
    (∃ s, (createDetailedFallback input uc err).lookup "emergency_protocols" =
      some (Json.jstr s) ∧ s ≠ "") ∧
    (createDetailedFallback input uc err).lookup "classification" =
      some (Json.jstr "requires_purification") ∧
    (createDetailedFallback input uc err).lookup "confidence_score" =
      some (Json.jnum 3 (-1)) ∧
    (createDetailedFallback input uc err).lookup "use_case" =
      some (Json.jstr uc) ∧
    (createDetailedFallback input uc err).lookup "detailed_parameters" =
      some (Json.jobj
        [("ph_analysis", Json.jstr "pH level unknown - testing required for accurate assessment"),
         ("turbidity_analysis", Json.jstr "Turbidity level unknown - visual inspection and testing recommended"),
         ("chemical_analysis", Json.jstr "Chemical composition unknown - laboratory testing required"),
         ("biological_analysis", Json.jstr "Microbial content unknown - biological testing essential for safety"),
         ("physical_analysis", Json.jstr "Physical characteristics require professional evaluation")]) ∧
    (createDetailedFallback input uc err).lookup "processing_limitation" =
      some (Json.jbool true) ∧
    (uc ≠ "drinking" → uc ≠ "irrigation" → uc ≠ "human" → uc ≠ "animals" →
      (createDetailedFallback input uc err).lookup "purification_instructions" =
        some (Json.jstr stepsDrinking)) := by
  refine ⟨rfl,
    ⟨_, rfl, append_ne_empty_right _ _ (by decide)⟩,
    ⟨_, rfl, append_ne_empty_right _ _ (by decide)⟩,
    ⟨_, rfl, by decide⟩,
    ⟨_, rfl, getDetailedPurificationSteps_ne_empty uc⟩,
    ⟨_, rfl, by decide⟩,
    ⟨_, rfl, append_ne_empty_right _ _ (by decide)⟩,
    ⟨_, rfl, by decide⟩,
    ⟨_, rfl, by decide⟩,
    rfl, rfl, rfl, rfl, rfl, ?_⟩
  intro h1 h2 h3 h4
  have hsteps := getDetailedPurificationSteps_unknown uc h1 h2 h3 h4
  show some (Json.jstr (getDetailedPurificationSteps uc)) = some (Json.jstr stepsDrinking)
  rw [hsteps]

/-- C7, witness: the fallback generator at the unknown use case
spaceship. -/
theorem c7_witness :
    (createDetailedFallback "x" "spaceship" (some "boom")).lookup "health_percentage" =
      some (Json.jnum 45 0) ∧
    (createDetailedFallback "x" "spaceship" (some "boom")).lookup "use_case" =
      some (Json.jstr "spaceship") ∧
    (createDetailedFallback "x" "spaceship" (some "boom")).lookup
      "purification_instructions" = some (Json.jstr stepsDrinking) := by
  have h := c7_fallback_total "x" "spaceship" (some "boom")
  exact ⟨h.1, h.2.2.2.2.2.2.2.2.2.2.2.1,
    h.2.2.2.2.2.2.2.2.2.2.2.2.2.2 (by decide) (by decide) (by decide) (by decide)⟩

/-- C8: the raw error text never reaches a safety-bearing field: two
fallback records differing only in the error string agree on every field
other than the diagnostic scientific_rationale, and the concise fallback
of the simplified variant ignores the error entirely. -/
theorem c8_error_confinement (input uc : String) (e1 e2 : Option String) :
    (createDetailedFallback input uc e1).lookup "health_percentage" =
      (createDetailedFallback input uc e2).lookup "health_percentage" ∧
    (createDetailedFallback input uc e1).lookup "detailed_assessment" =
      (createDetailedFallback input uc e2).lookup "detailed_assessment" ∧
    (createDetailedFallback input uc e1).lookup "current_safety_analysis" =
      (createDetailedFallback input uc e2).lookup "current_safety_analysis" ∧
    (createDetailedFallback input uc e1).lookup "risk_analysis" =
      (createDetailedFallback input uc e2).lookup "risk_analysis" ∧
    (createDetailedFallback input uc e1).lookup "purification_instructions" =
      (createDetailedFallback input uc e2).lookup "purification_instructions" ∧
    (createDetailedFallback input uc e1).lookup "environmental_context" =
      (createDetailedFallback input uc e2).lookup "environmental_context" ∧
    (createDetailedFallback input uc e1).lookup "long_term_considerations" =
      (createDetailedFallback input uc e2).lookup "long_term_considerations" ∧
    (createDetailedFallback input uc e1).lookup "emergency_protocols" =
      (createDetailedFallback input uc e2).lookup "emergency_protocols" ∧
    (createDetailedFallback input uc e1).lookup "classification" =
      (createDetailedFallback input uc e2).lookup "classification" ∧
    (createDetailedFallback input uc e1).lookup "confidence_score" =
      (createDetailedFallback input uc e2).lookup "confidence_score" ∧
    (createDetailedFallback input uc e1).lookup "use_case" =
      (createDetailedFallback input uc e2).lookup "use_case" ∧
    (createDetailedFallback input uc e1).lookup "detailed_parameters" =
      (createDetailedFallback input uc e2).lookup "detailed_parameters" ∧
    (createDetailedFallback input uc e1).lookup "processing_limitation" =
      (createDetailedFallback input uc e2).lookup "processing_limitation" ∧
    createConciseFallback input uc e1 = createConciseFallback input uc e2 :=
  ⟨rfl, rfl, rfl, rfl, rfl, rfl, rfl, rfl, rfl, rfl, rfl, rfl, rfl, rfl⟩

/-- C9: on the simplified-shape fallback path the emitted health
percentage is exactly 50, rendered as the string 50 percent sign, both
when the completion call raises and when its reply has no extractable
JSON; and each of the three text fields of the FinalReport receives its
fixed literal default sentence when the corresponding key is missing
from the analysis result. -/
theorem c9_simplified_defaults (input uc : String) :
    (∀ err, (mkFinalResult (createConciseFallback input uc err)).water_health_percent =
      "50%") ∧
    (∀ o t, o (promptSimple input uc) = Except.ok t → extractBraceSpan t = none →
      (mkFinalResult (analyzeWaterSimple o input uc).1).water_health_percent =
        "50%") ∧
    (∀ o e, o (promptSimple input uc) = Except.error e →
      (mkFinalResult (analyzeWaterSimple o input uc).1).water_health_percent =
        "50%") ∧
    (∀ kvs : List (String × Json), kvs.lookup "health_percentage" = none →
      (mkFinalResult (Json.jobj kvs)).water_health_percent = "50%") ∧
    (∀ kvs : List (String × Json), kvs.lookup "current_safety_analysis" = none →
      (mkFinalResult (Json.jobj kvs)).current_water_use_cases =
        Json.jstr "Use with caution; treat before sensitive uses.") ∧
    (∀ kvs : List (String × Json), kvs.lookup "risk_analysis" = none →
      (mkFinalResult (Json.jobj kvs)).potential_dangers =
        Json.jstr "Possible microbial or chemical contaminants.") ∧
    (∀ kvs : List (String × Json), kvs.lookup "purification_instructions" = none →
      (mkFinalResult (Json.jobj kvs)).purify_for_selected_use =
        Json.jstr "Filter and disinfect before your selected use.") := by
  refine ⟨fun err => rfl, ?_, ?_, ?_, ?_, ?_, ?_⟩
  · intro o t h1 h2
    unfold analyzeWaterSimple
    simp only [h1, h2]
    rfl
  · intro o e h1
    unfold analyzeWaterSimple
    simp only [h1]
    rfl
  · intro kvs h
    unfold mkFinalResult Json.getD
    simp only [h, Option.getD_none]
    rfl
  · intro kvs h
    unfold mkFinalResult Json.getD
    simp only [h, Option.getD_none]
  · intro kvs h
    unfold mkFinalResult Json.getD
    simp only [h, Option.getD_none]
  · intro kvs h
    unfold mkFinalResult Json.getD
    simp only [h, Option.getD_none]

/-- C9, witness: the defaults on a concrete failing collaborator and the
empty analysis result. -/
theorem c9_witness :
    (mkFinalResult (createConciseFallback "i" "drinking" none)).water_health_percent =
      "50%" ∧
    (mkFinalResult (analyzeWaterSimple c6NoBraceOracle "i" "drinking").1).water_health_percent =
      "50%" ∧
    (mkFinalResult (Json.jobj [])).water_health_percent = "50%" ∧
    (mkFinalResult (Json.jobj [])).current_water_use_cases =
      Json.jstr "Use with caution; treat before sensitive uses." ∧
    (mkFinalResult (Json.jobj [])).potential_dangers =
      Json.jstr "Possible microbial or chemical contaminants." ∧
    (mkFinalResult (Json.jobj [])).purify_for_selected_use =
      Json.jstr "Filter and disinfect before your selected use." := by
  have h := c9_simplified_defaults "i" "drinking"
  exact ⟨h.1 none,
    h.2.1 c6NoBraceOracle "no braces in this reply" rfl rfl,
    h.2.2.2.1 [] rfl, h.2.2.2.2.1 [] rfl, h.2.2.2.2.2.1 [] rfl,
    h.2.2.2.2.2.2 [] rfl⟩

end WaterJudge
